import Mathlib

/-!
# ecobeehvacmode: a shallow embedding of `ecobeehvacmode.go`

The program is a one-shot command: it reads a refresh token from a file,
exchanges it at the vendor token endpoint, and then either sets the HVAC mode
named on the command line, or only refreshes, or looks up the outdoor
temperature and switches between `heat` and `auxHeatOnly`.

Everything outside the process (the token file, the four HTTP endpoints, the
weather library and `encoding/json`) is a field of `World`: a fixed table of
answers.  Each endpoint is contacted at most once per run, so a table indexed
by the request is as general as any remote behaviour.  The process state `Sys`
is the content of the token file and the list of network requests sent so far.
`log.Fatal` (and a runtime panic) is `Except.error`; the state reached at the
abort is kept next to it.  Where the source logs a bare error value the model
uses a fixed text naming the call that failed.
-/

namespace Ecobeehvacmode

/-! ## Data model -/

/-- Source `const tokenUri`. -/
def tokenUri : String := "https://api.ecobee.com/token"

/-- Source `const thermostatURI`. -/
def thermostatURI : String := "https://api.ecobee.com/1/thermostat?format=json"

/-- The package-level variables, each read once from the process environment.
`refreshTokenConst` is the value of `REFRESHTOKEN` (the fallback that
`readRefreshToken` returns).  The two lockout thresholds are numeric degrees
Celsius: the comparison in `changeBasedOnOwm` is between numbers.  A finite
`float64` is a rational number and `<` on finite floats is `<` on the
rationals, so temperatures are `ℚ`. -/
structure Env where
  apiKey : String
  refreshTokenConst : String
  refreshTokenFile : String
  owmApiKey : String
  weatherLocation : String
  furnaceLockoutTempC : ℚ
  heatpumpLockoutTempC : ℚ

/-- Source `type TokenResponse struct`. -/
structure TokenResponse where
  AccessToken : String
  TokenType : String
  RefreshToken : String
  ExpiresIn : Int
  Scope : String
deriving DecidableEq, Repr

/-- The value of `var tokenResponse TokenResponse` before anything is decoded
into it. -/
def TokenResponse.zero : TokenResponse :=
  { AccessToken := "", TokenType := "", RefreshToken := "", ExpiresIn := 0, Scope := "" }

/-- Source `type Status struct`. -/
structure Status where
  Code : Int
  Message : String
deriving DecidableEq, Repr

/-- Source `type StatusResponse struct`. -/
structure StatusResponse where
  ThermostatCount : Int
  RevisionList : List String
  StatusList : List String
  Status : Status
deriving DecidableEq, Repr

/-- One entry of `ThermostatResponse.ThermostatList`.  Of the settings block
only `Settings.HvacMode` is ever read by the program; the other settings
fields are left out. -/
structure Thermostat where
  Identifier : String
  Name : String
  HvacMode : String
deriving DecidableEq, Repr

/-- Source `type ThermostatResponse struct` (the list and the status). -/
structure ThermostatResponse where
  ThermostatList : List Thermostat
  Status : Status
deriving DecidableEq, Repr

/-- What an HTTP exchange gives back: the request fails in transport
(`http.PostForm` / `client.Do` return an error), or reading the body fails
(`io.ReadAll`), or a body arrives. -/
inductive HttpResult where
  | transportError
  | bodyError
  | body (b : String)
deriving DecidableEq, Repr

/-- The token file as `os.ReadFile` sees it. -/
inductive FileState where
  | absent
  | unreadable
  | holds (content : String)
deriving DecidableEq, Repr

/-- A network request sent by the process. -/
inductive Call where
  | tokenPost (code clientId : String)
  | summaryGet (accessToken : String)
  | thermostatGet (accessToken : String)
  | thermostatPost (accessToken hvacMode : String)
  | weatherByName (location : String)
deriving DecidableEq, Repr

/-- The world outside the process.  `written str` is how many leading
characters of `str` a `f.WriteString str` gets onto the token file (all of
them when the write goes through, fewer, possibly none, when it fails).  For
the JSON decoders the first component is the target struct after
`json.Unmarshal` returned and the second tells whether it returned an error;
for `currentByName` the first component is `w.Main.Temp` after the call and
the second tells whether the call returned an error. -/
structure World where
  createFails : Bool
  written : String → Nat
  tokenPost : String → String → HttpResult
  unmarshalToken : String → TokenResponse × Bool
  summaryGet : String → HttpResult
  unmarshalStatus : String → StatusResponse × Bool
  thermostatGet : String → HttpResult
  unmarshalThermostat : String → ThermostatResponse × Bool
  thermostatPost : String → String → HttpResult
  newCurrentFails : String → Bool
  currentByName : String → ℚ × Bool

/-- The process state: the token file and the requests sent so far, oldest
first. -/
structure Sys where
  file : FileState
  calls : List Call
deriving DecidableEq, Repr

/-- A step of the program: a result or a fatal message, and the state after. -/
abbrev Step (α : Type) : Type := Except String α × Sys

/-- Sequencing: a fatal step ends the run, otherwise the rest runs from the
state reached. -/
def andThen {α β : Type} (r : Step α) (k : α → Sys → Step β) : Step β :=
  match r with
  | (Except.ok a, s) => k a s
  | (Except.error m, s) => (Except.error m, s)

/-- Records a request in the state. -/
def send (c : Call) (s : Sys) : Sys :=
  { s with calls := s.calls ++ [c] }

/-! ## Token store -/

/-- Source `func readRefreshToken`: a missing file yields the known constant, any
other read error is fatal. -/
def readRefreshToken (e : Env) (s : Sys) : Step String :=
  match s.file with
  | FileState.absent => (Except.ok e.refreshTokenConst, s)
  | FileState.unreadable => (Except.error "Error reading file. ", s)
  | FileState.holds b => (Except.ok b, s)

/-- Source `os.Create`: the file is created or truncated to length zero. -/
def osCreate (w : World) (s : Sys) : Step Unit :=
  if w.createFails then (Except.error "Error writing file. ", s)
  else (Except.ok (), { s with file := FileState.holds "" })

/-- The part of `str` that a `f.WriteString str` gets onto the file. -/
def landed (w : World) (str : String) : String :=
  String.mk (str.data.take (w.written str))

/-- Whether a `f.WriteString str` goes through: the whole string reaches the
file and the call returns no error. -/
def writeGoesThrough (w : World) (str : String) : Prop :=
  str.length ≤ w.written str

instance (w : World) (str : String) : Decidable (writeGoesThrough w str) :=
  inferInstanceAs (Decidable (str.length ≤ w.written str))

/-- Source `f.WriteString` on the handle `os.Create` returned: what reaches the
file goes after what the file holds.  The source drops the `(n, err)` the call
returns, so a short or failed write changes nothing else in the run. -/
def fileWriteString (w : World) (str : String) (s : Sys) : Sys :=
  match s.file with
  | FileState.holds c => { s with file := FileState.holds (c ++ landed w str) }
  | FileState.absent => s
  | FileState.unreadable => s

/-- Source `func writeRefreshToken`: only the error of `os.Create` is fatal. -/
def writeRefreshToken (w : World) (refreshToken : String) (s : Sys) : Step Unit :=
  andThen (osCreate w s) fun _ s1 => (Except.ok (), fileWriteString w refreshToken s1)

/-! ## Auth client -/

/-- Source `func renewAccessToken`: the error of `json.Unmarshal` is assigned and
never looked at. -/
def renewAccessToken (e : Env) (w : World) (refreshToken : String) (s : Sys) :
    Step TokenResponse :=
  let s1 := send (Call.tokenPost refreshToken e.apiKey) s
  match w.tokenPost refreshToken e.apiKey with
  | HttpResult.transportError => (Except.error "Error reading request. ", s1)
  | HttpResult.bodyError => (Except.error "io.ReadAll failed", s1)
  | HttpResult.body body =>
    let tokenResponse := (w.unmarshalToken body).1
    andThen (writeRefreshToken w tokenResponse.RefreshToken s1) fun _ s2 =>
      (Except.ok tokenResponse, s2)

/-! ## Thermostat client -/

/-- The JSON body of the mode-change request. -/
def setHvacModeData (hvacMode : String) : String :=
  "\x7b\"selection\":\x7b\"selectionType\":\"registered\",\"selectionMatch\":\"\"\x7d,\"thermostat\":\x7b\"settings\":\x7b\"hvacMode\":\""
    ++ hvacMode ++ "\"\x7d\x7d\x7d"

/-- Source `func setHvacMode`. -/
def setHvacMode (w : World) (accessToken : String) (hvacMode : String) (s : Sys) :
    Step Unit :=
  let s1 := send (Call.thermostatPost accessToken hvacMode) s
  match w.thermostatPost accessToken (setHvacModeData hvacMode) with
  | HttpResult.transportError => (Except.error "Error reading response. ", s1)
  | HttpResult.bodyError => (Except.error "Error reading body. ", s1)
  | HttpResult.body _ => (Except.ok (), s1)

/-- Source `func getStatusId`: the first revision entry up to its first colon.  An
empty revision list is an index panic. -/
def getStatusId (w : World) (accessToken : String) (s : Sys) : Step String :=
  let s1 := send (Call.summaryGet accessToken) s
  match w.summaryGet accessToken with
  | HttpResult.transportError => (Except.error "Error reading response. ", s1)
  | HttpResult.bodyError => (Except.error "Error reading body. ", s1)
  | HttpResult.body body =>
    let statusResponse := w.unmarshalStatus body
    if statusResponse.2 then (Except.error "Error parsing status response. ", s1)
    else
      match statusResponse.1.RevisionList with
      | [] => (Except.error "runtime error: index out of range", s1)
      | r :: _ => (Except.ok ((r.splitOn ":").headD ""), s1)

/-- Source `func getHvacMode`: the mode of the first thermostat of the list.  The
`statusId` argument is not used by the source. -/
def getHvacMode (w : World) (accessToken : String) (_statusId : String) (s : Sys) :
    Step String :=
  let s1 := send (Call.thermostatGet accessToken) s
  match w.thermostatGet accessToken with
  | HttpResult.transportError => (Except.error "Error reading response. ", s1)
  | HttpResult.bodyError => (Except.error "Error reading body. ", s1)
  | HttpResult.body body =>
    let thermostatResponse := w.unmarshalThermostat body
    if thermostatResponse.2 then (Except.error "Error parsing status response. ", s1)
    else
      match thermostatResponse.1.ThermostatList with
      | [] => (Except.error "runtime error: index out of range", s1)
      | t :: _ => (Except.ok t.HvacMode, s1)

/-! ## Weather client -/

/-- Source `func getTemp`: a client that cannot be built is fatal; the error that
`w.CurrentByName` returns is dropped and `w.Main.Temp` is returned as the call
left it. -/
def getTemp (e : Env) (w : World) (s : Sys) : Step ℚ :=
  if w.newCurrentFails e.owmApiKey then (Except.error "owm.NewCurrent failed", s)
  else
    let s1 := send (Call.weatherByName e.weatherLocation) s
    (Except.ok (w.currentByName e.weatherLocation).1, s1)

/-! ## Decision engine and dispatcher -/

/-- Source `func changeBasedOnOwm`. -/
def changeBasedOnOwm (e : Env) (w : World) (refreshToken : String) (s : Sys) : Step Unit :=
  andThen (getTemp e w s) fun currentTemp s1 =>
    if currentTemp < e.heatpumpLockoutTempC then
      andThen (renewAccessToken e w refreshToken s1) fun tokenResponse s2 =>
      andThen (getStatusId w tokenResponse.AccessToken s2) fun statusId s3 =>
      andThen (getHvacMode w tokenResponse.AccessToken statusId s3) fun hvacMode s4 =>
        if hvacMode = "heat" then setHvacMode w tokenResponse.AccessToken "auxHeatOnly" s4
        else (Except.ok (), s4)
    else if currentTemp > e.furnaceLockoutTempC then
      andThen (renewAccessToken e w refreshToken s1) fun tokenResponse s2 =>
      andThen (getStatusId w tokenResponse.AccessToken s2) fun statusId s3 =>
      andThen (getHvacMode w tokenResponse.AccessToken statusId s3) fun hvacMode s4 =>
        if hvacMode = "auxHeatOnly" then setHvacMode w tokenResponse.AccessToken "heat" s4
        else (Except.ok (), s4)
    else (Except.ok (), s1)

/-- Source `func main`, after flag parsing: `hvacMode` is the value of `-m` (empty
when absent), `refresh` of `-r`, `weather` of `-w`. -/
def main (e : Env) (w : World) (hvacMode : String) (refresh weather : Bool) (s : Sys) :
    Step Unit :=
  andThen (readRefreshToken e s) fun refreshToken s1 =>
    if !refresh then
      if !(hvacMode = "heat" || hvacMode = "cool" || hvacMode = "auto" || hvacMode = "off"
            || hvacMode = "auxHeatOnly") then
        (Except.error "Invalid HVAC mode. Must be one of: heat, cool, auto, off, auxHeatOnly", s1)
      else
        andThen (renewAccessToken e w refreshToken s1) fun tokenResponse s2 =>
          setHvacMode w tokenResponse.AccessToken hvacMode s2
    else if weather then
      changeBasedOnOwm e w refreshToken s1
    else
      andThen (renewAccessToken e w refreshToken s1) fun _ s2 => (Except.ok (), s2)

/-! ## Observations on a run -/

/-- The modes of the set-mode requests among the requests sent, in order. -/
def setModeCalls (cs : List Call) : List String :=
  cs.filterMap fun c =>
    match c with
    | Call.thermostatPost _ m => some m
    | _ => none

/-- The token exchanges among the requests sent: the refresh token posted by
each, in order. -/
def tokenRefreshes (cs : List Call) : List String :=
  cs.filterMap fun c =>
    match c with
    | Call.tokenPost code _ => some code
    | _ => none

/-- Whether a request goes to the thermostat API (summary, detail or
set-mode). -/
def Call.isThermostat : Call → Bool
  | Call.summaryGet _ => true
  | Call.thermostatGet _ => true
  | Call.thermostatPost _ _ => true
  | _ => false

/-- Whether a request is the weather lookup. -/
def Call.isWeather : Call → Bool
  | Call.weatherByName _ => true
  | _ => false

/-- Whether a step ended in a fatal abort. -/
def aborted {α : Type} (r : Step α) : Bool :=
  match r.1 with
  | Except.ok _ => false
  | Except.error _ => true

/-- The mode that a weather-driven run reads from the thermostat once it has
decided to look: token exchange, summary, detail, in the order of either
branch of `changeBasedOnOwm`.  `none` when one of the three aborts. -/
def observedMode (e : Env) (w : World) (refreshToken : String) (s : Sys) : Option String :=
  match andThen (renewAccessToken e w refreshToken s) fun tokenResponse s2 =>
        andThen (getStatusId w tokenResponse.AccessToken s2) fun statusId s3 =>
          getHvacMode w tokenResponse.AccessToken statusId s3 with
  | (Except.ok hvacMode, _) => some hvacMode
  | (Except.error _, _) => none

/-- The state in which a run starts: the token file as found, nothing sent. -/
def start (file : FileState) : Sys :=
  { file := file, calls := [] }

/-! ## Definitions used to state and prove the properties -/

deriving instance DecidableEq for Except

/-- The body shared by the two branches of `changeBasedOnOwm`: exchange the
token, read the summary and the detail, and post `target` when the mode read
is `guard`.  `changeBasedOnOwm` is definitionally its two instances, see
`changeBasedOnOwm_eq`. -/
def guardedSwitch (e : Env) (w : World) (refreshToken guard target : String) (s : Sys) :
    Step Unit :=
  andThen (renewAccessToken e w refreshToken s) fun tokenResponse s2 =>
  andThen (getStatusId w tokenResponse.AccessToken s2) fun statusId s3 =>
  andThen (getHvacMode w tokenResponse.AccessToken statusId s3) fun hvacMode s4 =>
    if hvacMode = guard then setHvacMode w tokenResponse.AccessToken target s4
    else (Except.ok (), s4)

/-- The three invocation modes of the dispatcher, as the specification names
them. -/
inductive Path where
  | directMode
  | refreshOnly
  | weatherDriven
deriving DecidableEq, Repr

/-- What each invocation mode does once the refresh token is loaded, in the
words of the specification: direct mode validates the mode name, refreshes and sets
the mode; refresh-only refreshes; weather-driven hands over to
`changeBasedOnOwm`.  `main` is compared with this definition. -/
def runPath (e : Env) (w : World) (p : Path) (hvacMode refreshToken : String) (s : Sys) :
    Step Unit :=
  match p with
  | Path.directMode =>
    if hvacMode = "heat" ∨ hvacMode = "cool" ∨ hvacMode = "auto" ∨ hvacMode = "off"
        ∨ hvacMode = "auxHeatOnly" then
      andThen (renewAccessToken e w refreshToken s) fun tokenResponse s2 =>
        setHvacMode w tokenResponse.AccessToken hvacMode s2
    else
      (Except.error "Invalid HVAC mode. Must be one of: heat, cool, auto, off, auxHeatOnly", s)
  | Path.refreshOnly =>
    andThen (renewAccessToken e w refreshToken s) fun _ s2 => (Except.ok (), s2)
  | Path.weatherDriven => changeBasedOnOwm e w refreshToken s

/-- A configuration with the given heat-pump and furnace lockout
temperatures. -/
def exampleEnv (heatpump furnace : ℚ) : Env :=
  { apiKey := "key", refreshTokenConst := "known", refreshTokenFile := "token.txt",
    owmApiKey := "owmkey", weatherLocation := "Seattle",
    furnaceLockoutTempC := furnace, heatpumpLockoutTempC := heatpump }

/-- A decoded token response: access token `A`, refresh token `R`. -/
def exampleToken : TokenResponse :=
  { AccessToken := "A", TokenType := "Bearer", RefreshToken := "R", ExpiresIn := 3599,
    Scope := "smartWrite" }

/-- A world in which every call, the file write included, succeeds: the token endpoint issues access
token `A` and refresh token `R`, the weather service reports `temp` and the
thermostat reports `mode`. -/
def exampleWorld (temp : ℚ) (mode : String) : World :=
  { createFails := false
    written := fun str => str.length
    tokenPost := fun _ _ => HttpResult.body "token-json"
    unmarshalToken := fun _ => (exampleToken, false)
    summaryGet := fun _ => HttpResult.body "summary-json"
    unmarshalStatus := fun _ =>
      ({ ThermostatCount := 1, RevisionList := ["415514179919:Home:true"], StatusList := [],
         Status := { Code := 0, Message := "" } }, false)
    thermostatGet := fun _ => HttpResult.body "thermostat-json"
    unmarshalThermostat := fun _ =>
      ({ ThermostatList := [{ Identifier := "415514179919", Name := "Home", HvacMode := mode }],
         Status := { Code := 0, Message := "" } }, false)
    thermostatPost := fun _ _ => HttpResult.body "ok"
    newCurrentFails := fun _ => false
    currentByName := fun _ => (temp, false) }

/-- A world whose token endpoint answers with a body that does not decode:
`json.Unmarshal` reports an error and leaves the struct at its zero value. -/
def decodeFailureWorld : World :=
  { exampleWorld 0 "heat" with
    unmarshalToken := fun _ => (TokenResponse.zero, true) }

/-- A world in which the token file can be created but nothing can be written
to it (a full disk): `f.WriteString` writes no byte and returns an error. -/
def writeFailureWorld : World :=
  { exampleWorld 0 "heat" with
    written := fun _ => 0 }

/-- A world whose token endpoint answers with a body in which one field has
the wrong type: `json.Unmarshal` reports an error after it has filled the
other fields, here access token `A3` and refresh token `R3`. -/
def partialDecodeWorld : World :=
  { exampleWorld 0 "heat" with
    unmarshalToken := fun _ =>
      ({ AccessToken := "A3", TokenType := "Bearer", RefreshToken := "R3", ExpiresIn := 0,
         Scope := "smartWrite" }, true) }

/-- A world whose weather request fails: `CurrentByName` returns an error and
the freshly built `CurrentWeatherData` keeps `Main.Temp = 0`.  The thermostat
is in mode `heat`. -/
def weatherDownWorld : World :=
  { exampleWorld 0 "heat" with
    currentByName := fun _ => (0, true) }

end Ecobeehvacmode

/-! ## Lemmas on the steps -/

namespace Ecobeehvacmode

theorem andThen_ok {α β : Type} (r : Step α) (k : α → Sys → Step β) (a : α)
    (h : r.1 = Except.ok a) : andThen r k = k a r.2 := by
  obtain ⟨x, s⟩ := r
  simp only at h
  subst h
  rfl

theorem andThen_error {α β : Type} (r : Step α) (k : α → Sys → Step β) (m : String)
    (h : r.1 = Except.error m) : andThen r k = (Except.error m, r.2) := by
  obtain ⟨x, s⟩ := r
  simp only at h
  subst h
  rfl

theorem readRefreshToken_state (e : Env) (s : Sys) : (readRefreshToken e s).2 = s := by
  unfold readRefreshToken
  cases s.file <;> rfl

/-- A write that goes through puts the whole string on the file. -/
theorem landed_of_writeGoesThrough (w : World) (str : String)
    (h : writeGoesThrough w str) : landed w str = str := by
  unfold landed
  unfold writeGoesThrough at h
  rw [List.take_of_length_le h]

/-- Nothing of the empty string can fail to reach the file. -/
theorem landed_empty (w : World) : landed w "" = "" := by
  unfold landed
  simp

/-- Creating the file and writing the token leaves exactly what the write got
onto the file. -/
theorem writeRefreshToken_eq (w : World) (T : String) (s : Sys) :
    writeRefreshToken w T s =
      if w.createFails then (Except.error "Error writing file. ", s)
      else (Except.ok (), { file := FileState.holds (landed w T), calls := s.calls }) := by
  unfold writeRefreshToken osCreate
  cases h : w.createFails <;> simp [andThen, fileWriteString]

/-- The token exchange once the endpoint has answered with a body. -/
theorem renewAccessToken_eq (e : Env) (w : World) (tok body : String) (s : Sys)
    (hpost : w.tokenPost tok e.apiKey = HttpResult.body body) :
    renewAccessToken e w tok s =
      if w.createFails then
        (Except.error "Error writing file. ", send (Call.tokenPost tok e.apiKey) s)
      else
        (Except.ok (w.unmarshalToken body).1,
          { file := FileState.holds (landed w (w.unmarshalToken body).1.RefreshToken),
            calls := s.calls ++ [Call.tokenPost tok e.apiKey] }) := by
  unfold renewAccessToken
  simp only [hpost, writeRefreshToken_eq]
  cases w.createFails <;> simp [andThen, send]

theorem renewAccessToken_calls (e : Env) (w : World) (tok : String) (s : Sys) :
    (renewAccessToken e w tok s).2.calls = s.calls ++ [Call.tokenPost tok e.apiKey] := by
  unfold renewAccessToken
  cases w.tokenPost tok e.apiKey <;> simp [send, writeRefreshToken_eq]
  cases w.createFails <;> simp [andThen]

theorem getStatusId_calls (w : World) (a : String) (s : Sys) :
    (getStatusId w a s).2.calls = s.calls ++ [Call.summaryGet a] := by
  unfold getStatusId
  cases w.summaryGet a <;> simp [send]
  split
  · rfl
  · split <;> rfl

theorem getHvacMode_calls (w : World) (a i : String) (s : Sys) :
    (getHvacMode w a i s).2.calls = s.calls ++ [Call.thermostatGet a] := by
  unfold getHvacMode
  cases w.thermostatGet a <;> simp [send]
  split
  · rfl
  · split <;> rfl

theorem setHvacMode_calls (w : World) (a m : String) (s : Sys) :
    (setHvacMode w a m s).2.calls = s.calls ++ [Call.thermostatPost a m] := by
  unfold setHvacMode
  cases w.thermostatPost a (setHvacModeData m) <;> simp [send]

theorem getTemp_eq (e : Env) (w : World) (s : Sys) (t : ℚ)
    (h : (getTemp e w s).1 = Except.ok t) :
    getTemp e w s = (Except.ok t, send (Call.weatherByName e.weatherLocation) s) := by
  unfold getTemp at h ⊢
  cases hf : w.newCurrentFails e.owmApiKey
  · simp [hf] at h ⊢
    exact h
  · simp [hf] at h

/-- The state after a lookup that returned, from a fresh start. -/
theorem getTemp_start (e : Env) (w : World) (file : FileState) (t : ℚ)
    (h : (getTemp e w (start file)).1 = Except.ok t) :
    getTemp e w (start file) =
      (Except.ok t, { file := file, calls := [Call.weatherByName e.weatherLocation] }) := by
  rw [getTemp_eq e w (start file) t h]
  simp [send, start]

theorem changeBasedOnOwm_eq (e : Env) (w : World) (tok : String) (s : Sys) :
    changeBasedOnOwm e w tok s =
      andThen (getTemp e w s) fun currentTemp s1 =>
        if currentTemp < e.heatpumpLockoutTempC then
          guardedSwitch e w tok "heat" "auxHeatOnly" s1
        else if currentTemp > e.furnaceLockoutTempC then
          guardedSwitch e w tok "auxHeatOnly" "heat" s1
        else (Except.ok (), s1) := rfl

/-- A branch posts its target mode exactly when the mode read is its guard. -/
theorem guardedSwitch_setModeCalls (e : Env) (w : World) (tok guard target : String)
    (s : Sys) :
    setModeCalls (guardedSwitch e w tok guard target s).2.calls =
      setModeCalls s.calls ++
        (if observedMode e w tok s = some guard then [target] else []) := by
  unfold guardedSwitch observedMode
  have h2 := renewAccessToken_calls e w tok s
  rcases hr : renewAccessToken e w tok s with ⟨_ | tr, s2⟩
  · rw [hr] at h2
    simp only at h2
    simp [andThen, h2, setModeCalls]
  · rw [hr] at h2
    simp only at h2
    have h3 := getStatusId_calls w tr.AccessToken s2
    rcases hs : getStatusId w tr.AccessToken s2 with ⟨_ | id, s3⟩
    · rw [hs] at h3
      simp only at h3
      simp [andThen, hs, h3, h2, setModeCalls]
    · rw [hs] at h3
      simp only at h3
      have h4 := getHvacMode_calls w tr.AccessToken id s3
      rcases hm : getHvacMode w tr.AccessToken id s3 with ⟨_ | m, s4⟩
      · rw [hm] at h4
        simp only at h4
        simp [andThen, hs, hm, h4, h3, h2, setModeCalls]
      · rw [hm] at h4
        simp only at h4
        by_cases hg : m = guard
        · simp [andThen, hs, hm, hg, setHvacMode_calls, h4, h3, h2, setModeCalls]
        · simp [andThen, hs, hm, hg, h4, h3, h2, setModeCalls]

/-- A branch starts with the token exchange and makes no second one. -/
theorem guardedSwitch_calls (e : Env) (w : World) (tok guard target : String) (s : Sys) :
    ∃ rest, (guardedSwitch e w tok guard target s).2.calls =
        s.calls ++ Call.tokenPost tok e.apiKey :: rest ∧ tokenRefreshes rest = [] := by
  unfold guardedSwitch
  have h2 := renewAccessToken_calls e w tok s
  rcases hr : renewAccessToken e w tok s with ⟨_ | tr, s2⟩
  · rw [hr] at h2
    simp only at h2
    exact ⟨[], by simp [andThen, h2], rfl⟩
  · rw [hr] at h2
    simp only at h2
    have h3 := getStatusId_calls w tr.AccessToken s2
    rcases hs : getStatusId w tr.AccessToken s2 with ⟨_ | id, s3⟩
    · rw [hs] at h3
      simp only at h3
      exact ⟨[Call.summaryGet tr.AccessToken], by simp [andThen, hs, h3, h2], rfl⟩
    · rw [hs] at h3
      simp only at h3
      have h4 := getHvacMode_calls w tr.AccessToken id s3
      rcases hm : getHvacMode w tr.AccessToken id s3 with ⟨_ | m, s4⟩
      · rw [hm] at h4
        simp only at h4
        exact ⟨[Call.summaryGet tr.AccessToken, Call.thermostatGet tr.AccessToken],
          by simp [andThen, hs, hm, h4, h3, h2], rfl⟩
      · rw [hm] at h4
        simp only at h4
        by_cases hg : m = guard
        · exact ⟨[Call.summaryGet tr.AccessToken, Call.thermostatGet tr.AccessToken,
              Call.thermostatPost tr.AccessToken target],
            by simp [andThen, hs, hm, hg, setHvacMode_calls, h4, h3, h2], rfl⟩
        · exact ⟨[Call.summaryGet tr.AccessToken, Call.thermostatGet tr.AccessToken],
            by simp [andThen, hs, hm, hg, h4, h3, h2], rfl⟩

theorem main_direct (e : Env) (w : World) (m : String) (weather : Bool) (s : Sys) :
    main e w m false weather s =
      andThen (readRefreshToken e s) (runPath e w Path.directMode m) := by
  unfold main runPath
  congr 1
  funext tok s1
  by_cases h : m = "heat" ∨ m = "cool" ∨ m = "auto" ∨ m = "off" ∨ m = "auxHeatOnly"
  · simp [h]
    intro h1 h2 h3 h4 h5
    rcases h with h | h | h | h | h <;> contradiction
  · simp [h]
    push_neg at h
    simp [h]

theorem main_refreshOnly (e : Env) (w : World) (m : String) (s : Sys) :
    main e w m true false s =
      andThen (readRefreshToken e s) (runPath e w Path.refreshOnly m) := by
  unfold main runPath
  simp

theorem main_weatherDriven (e : Env) (w : World) (m : String) (s : Sys) :
    main e w m true true s =
      andThen (readRefreshToken e s) (runPath e w Path.weatherDriven m) := by
  unfold main runPath
  simp

end Ecobeehvacmode

/-! ## Decision engine -/

namespace Ecobeehvacmode

/-- C1: cold branch of `changeBasedOnOwm`.  For every outdoor temperature `t`
the lookup returns and every pair of thresholds with
`t < heatpumpLockoutTempC`: when the mode read from the thermostat is `heat`,
the run makes exactly one set-mode request and its mode is `auxHeatOnly`; when
the mode read is anything else (or could not be read), it makes none. -/
theorem cold_branch_heat_to_auxHeatOnly (e : Env) (w : World) (refreshToken : String)
    (file : FileState) (t : ℚ)
    (htemp : (getTemp e w (start file)).1 = Except.ok t)
    (hcold : t < e.heatpumpLockoutTempC) :
    (observedMode e w refreshToken (getTemp e w (start file)).2 = some "heat" →
      setModeCalls (changeBasedOnOwm e w refreshToken (start file)).2.calls
        = ["auxHeatOnly"]) ∧
    (observedMode e w refreshToken (getTemp e w (start file)).2 ≠ some "heat" →
      setModeCalls (changeBasedOnOwm e w refreshToken (start file)).2.calls = []) := by
  have hT := getTemp_start e w file t htemp
  rw [changeBasedOnOwm_eq, hT]
  simp only [andThen, hcold, if_true, guardedSwitch_setModeCalls]
  constructor
  · intro h
    simp [h, setModeCalls]
  · intro h
    simp [h, setModeCalls]

/-- Scenario 3 (-15 degrees, heat-pump lockout -10, mode `heat`) gives one
`auxHeatOnly` request; the same reading with mode `cool` gives none. -/
theorem cold_branch_heat_to_auxHeatOnly_witness :
    ((-15 : ℚ) < (exampleEnv (-10) 2).heatpumpLockoutTempC ∧
      setModeCalls (changeBasedOnOwm (exampleEnv (-10) 2) (exampleWorld (-15) "heat") "P"
        (start (FileState.holds "P"))).2.calls = ["auxHeatOnly"]) ∧
    setModeCalls (changeBasedOnOwm (exampleEnv (-10) 2) (exampleWorld (-15) "cool") "P"
      (start (FileState.holds "P"))).2.calls = [] :=
  ⟨⟨by decide,
      (cold_branch_heat_to_auxHeatOnly (exampleEnv (-10) 2) (exampleWorld (-15) "heat") "P"
        (FileState.holds "P") (-15) (by decide) (by decide)).1 (by decide)⟩,
    (cold_branch_heat_to_auxHeatOnly (exampleEnv (-10) 2) (exampleWorld (-15) "cool") "P"
      (FileState.holds "P") (-15) (by decide) (by decide)).2 (by decide)⟩

/-- C2, as stated, fails: with `t = 5`, `furnaceLockoutTempC = 2`, mode
`auxHeatOnly` and `heatpumpLockoutTempC = 10`, the reading is above the furnace
lockout, yet the run takes the cold branch and makes no set-mode request. -/
theorem warm_branch_not_taken_below_heatpump_lockout :
    (getTemp (exampleEnv 10 2) (exampleWorld 5 "auxHeatOnly")
        (start (FileState.holds "P"))).1 = Except.ok 5 ∧
    (5 : ℚ) > (exampleEnv 10 2).furnaceLockoutTempC ∧
    observedMode (exampleEnv 10 2) (exampleWorld 5 "auxHeatOnly") "P"
        (getTemp (exampleEnv 10 2) (exampleWorld 5 "auxHeatOnly")
          (start (FileState.holds "P"))).2 = some "auxHeatOnly" ∧
    setModeCalls (changeBasedOnOwm (exampleEnv 10 2) (exampleWorld 5 "auxHeatOnly") "P"
        (start (FileState.holds "P"))).2.calls = [] ∧
    setModeCalls (changeBasedOnOwm (exampleEnv 10 2) (exampleWorld 5 "auxHeatOnly") "P"
        (start (FileState.holds "P"))).2.calls ≠ ["heat"] := by
  decide

/-- C2 (amended): warm branch of `changeBasedOnOwm`.  For every outdoor
temperature `t` the lookup returns and every pair of thresholds with
`heatpumpLockoutTempC ≤ t` and `t > furnaceLockoutTempC`: when the mode read
from the thermostat is `auxHeatOnly`, the run makes exactly one set-mode
request and its mode is `heat`. -/
theorem warm_branch_auxHeatOnly_to_heat (e : Env) (w : World) (refreshToken : String)
    (file : FileState) (t : ℚ)
    (htemp : (getTemp e w (start file)).1 = Except.ok t)
    (hnotcold : e.heatpumpLockoutTempC ≤ t)
    (hwarm : t > e.furnaceLockoutTempC)
    (hmode : observedMode e w refreshToken (getTemp e w (start file)).2
      = some "auxHeatOnly") :
    setModeCalls (changeBasedOnOwm e w refreshToken (start file)).2.calls = ["heat"] := by
  have hT := getTemp_start e w file t htemp
  rw [hT] at hmode
  rw [changeBasedOnOwm_eq, hT]
  simp only [andThen, not_lt.mpr hnotcold, hwarm, if_true, if_false,
    guardedSwitch_setModeCalls, hmode]
  simp [setModeCalls]

/-- Scenario 4 (5 degrees, furnace lockout 2, heat-pump lockout -10, mode
`auxHeatOnly`) gives one `heat` request. -/
theorem warm_branch_auxHeatOnly_to_heat_witness :
    (exampleEnv (-10) 2).heatpumpLockoutTempC ≤ 5 ∧
    (5 : ℚ) > (exampleEnv (-10) 2).furnaceLockoutTempC ∧
    setModeCalls (changeBasedOnOwm (exampleEnv (-10) 2) (exampleWorld 5 "auxHeatOnly") "P"
      (start (FileState.holds "P"))).2.calls = ["heat"] :=
  ⟨by decide, by decide,
    warm_branch_auxHeatOnly_to_heat (exampleEnv (-10) 2) (exampleWorld 5 "auxHeatOnly") "P"
      (FileState.holds "P") 5 (by decide) (by decide) (by decide) (by decide)⟩

/-- C3: no-op of `changeBasedOnOwm`.  For every outdoor temperature `t` the
lookup returns, every pair of thresholds and every mode: if
`heatpumpLockoutTempC ≤ t ≤ furnaceLockoutTempC`, or if the mode read from the
thermostat is neither `heat` nor `auxHeatOnly`, the run makes no set-mode
request. -/
theorem no_switch_between_thresholds_or_other_mode (e : Env) (w : World)
    (refreshToken : String) (file : FileState) (t : ℚ)
    (htemp : (getTemp e w (start file)).1 = Except.ok t)
    (h : (e.heatpumpLockoutTempC ≤ t ∧ t ≤ e.furnaceLockoutTempC) ∨
      (observedMode e w refreshToken (getTemp e w (start file)).2 ≠ some "heat" ∧
        observedMode e w refreshToken (getTemp e w (start file)).2 ≠ some "auxHeatOnly")) :
    setModeCalls (changeBasedOnOwm e w refreshToken (start file)).2.calls = [] := by
  have hT := getTemp_start e w file t htemp
  rw [hT] at h
  rw [changeBasedOnOwm_eq, hT]
  simp only [andThen]
  rcases h with ⟨h1, h2⟩ | ⟨h1, h2⟩
  · simp [not_lt.mpr h1, not_lt.mpr h2, setModeCalls]
  · split
    · rw [guardedSwitch_setModeCalls, if_neg h1]
      simp [setModeCalls]
    · split
      · rw [guardedSwitch_setModeCalls, if_neg h2]
        simp [setModeCalls]
      · simp [setModeCalls]

/-- Scenario 5 (0 degrees between -10 and 2, mode `heat`) and a cold reading
with mode `off` both give no set-mode request. -/
theorem no_switch_between_thresholds_or_other_mode_witness :
    setModeCalls (changeBasedOnOwm (exampleEnv (-10) 2) (exampleWorld 0 "heat") "P"
      (start (FileState.holds "P"))).2.calls = [] ∧
    setModeCalls (changeBasedOnOwm (exampleEnv (-10) 2) (exampleWorld (-15) "off") "P"
      (start (FileState.holds "P"))).2.calls = [] :=
  ⟨no_switch_between_thresholds_or_other_mode (exampleEnv (-10) 2) (exampleWorld 0 "heat")
      "P" (FileState.holds "P") 0 (by decide) (Or.inl (by decide)),
    no_switch_between_thresholds_or_other_mode (exampleEnv (-10) 2)
      (exampleWorld (-15) "off") "P" (FileState.holds "P") (-15) (by decide)
      (Or.inr (by decide))⟩

end Ecobeehvacmode

/-! ## Weather-driven run: order of lookup and refresh -/

namespace Ecobeehvacmode

/-- C6, as stated, fails: at 0 degrees between the lockouts -10 and 2 the
weather-driven run makes no token exchange at all, and at -15 degrees the one
token exchange comes after the weather lookup, not before it. -/
theorem weather_run_lookup_first_refresh_conditional :
    (exampleEnv (-10) 2).heatpumpLockoutTempC ≤ 0 ∧
    (0 : ℚ) ≤ (exampleEnv (-10) 2).furnaceLockoutTempC ∧
    (changeBasedOnOwm (exampleEnv (-10) 2) (exampleWorld 0 "heat") "P"
        (start (FileState.holds "P"))).2.calls = [Call.weatherByName "Seattle"] ∧
    tokenRefreshes (changeBasedOnOwm (exampleEnv (-10) 2) (exampleWorld 0 "heat") "P"
        (start (FileState.holds "P"))).2.calls = [] ∧
    (changeBasedOnOwm (exampleEnv (-10) 2) (exampleWorld (-15) "heat") "P"
        (start (FileState.holds "P"))).2.calls =
      [Call.weatherByName "Seattle", Call.tokenPost "P" "key", Call.summaryGet "A",
        Call.thermostatGet "A", Call.thermostatPost "A" "auxHeatOnly"] := by
  decide

/-- C6 (amended): the weather-driven run fetches the outdoor temperature
first.  For every temperature `t` the lookup returns and every pair of
thresholds, the requests of the run are the weather lookup followed by the
rest, and the rest holds exactly one token exchange (of the refresh token
passed in) when `t < heatpumpLockoutTempC` or `t > furnaceLockoutTempC`, and
none when `heatpumpLockoutTempC ≤ t ≤ furnaceLockoutTempC`. -/
theorem weather_run_refreshes_after_lookup (e : Env) (w : World) (refreshToken : String)
    (file : FileState) (t : ℚ)
    (htemp : (getTemp e w (start file)).1 = Except.ok t) :
    ∃ rest, (changeBasedOnOwm e w refreshToken (start file)).2.calls
        = Call.weatherByName e.weatherLocation :: rest ∧
      tokenRefreshes rest =
        if t < e.heatpumpLockoutTempC ∨ t > e.furnaceLockoutTempC then [refreshToken]
        else [] := by
  have hT := getTemp_start e w file t htemp
  rw [changeBasedOnOwm_eq, hT]
  simp only [andThen]
  by_cases hc : t < e.heatpumpLockoutTempC
  · obtain ⟨rest, hr, hn⟩ := guardedSwitch_calls e w refreshToken "heat" "auxHeatOnly"
      { file := file, calls := [Call.weatherByName e.weatherLocation] }
    refine ⟨Call.tokenPost refreshToken e.apiKey :: rest, ?_, ?_⟩
    · simp [hc, hr]
    · simp [hc, tokenRefreshes] at hn ⊢
      exact hn
  · by_cases hw : t > e.furnaceLockoutTempC
    · obtain ⟨rest, hr, hn⟩ := guardedSwitch_calls e w refreshToken "auxHeatOnly" "heat"
        { file := file, calls := [Call.weatherByName e.weatherLocation] }
      refine ⟨Call.tokenPost refreshToken e.apiKey :: rest, ?_, ?_⟩
      · simp [hc, hw, hr]
      · simp [hw, tokenRefreshes] at hn ⊢
        exact hn
    · exact ⟨[], by simp [hc, hw], by simp [hc, hw, tokenRefreshes]⟩

/-- A warm reading (5 degrees, lockouts -10 and 2): the lookup comes first
and one token exchange follows. -/
theorem weather_run_refreshes_after_lookup_witness :
    ∃ rest, (changeBasedOnOwm (exampleEnv (-10) 2) (exampleWorld 5 "auxHeatOnly") "P"
        (start (FileState.holds "P"))).2.calls
        = Call.weatherByName (exampleEnv (-10) 2).weatherLocation :: rest ∧
      tokenRefreshes rest =
        if (5 : ℚ) < (exampleEnv (-10) 2).heatpumpLockoutTempC
            ∨ (5 : ℚ) > (exampleEnv (-10) 2).furnaceLockoutTempC then ["P"]
        else [] :=
  weather_run_refreshes_after_lookup (exampleEnv (-10) 2) (exampleWorld 5 "auxHeatOnly") "P"
    (FileState.holds "P") 5 (by decide)

end Ecobeehvacmode

/-! ## Dispatcher -/

namespace Ecobeehvacmode

/-- C4: direct-mode validation, `main` with `-r` unset.  For a mode string
among `heat`, `cool`, `auto`, `off`, `auxHeatOnly`, once the token file is read
and the token exchange and the save go through, the run sends exactly the
token exchange followed by one set-mode request carrying that mode and the
access token the exchange returned, and does not abort on validation.  For
every other mode string, the empty one included, the run aborts and has sent
no request at all. -/
theorem direct_mode_validation (e : Env) (w : World) (hvacMode : String) (weather : Bool)
    (file : FileState) :
    ((hvacMode = "heat" ∨ hvacMode = "cool" ∨ hvacMode = "auto" ∨ hvacMode = "off"
        ∨ hvacMode = "auxHeatOnly") →
      ∀ refreshToken body : String,
        (readRefreshToken e (start file)).1 = Except.ok refreshToken →
        w.tokenPost refreshToken e.apiKey = HttpResult.body body →
        w.createFails = false →
        (renewAccessToken e w refreshToken (start file)).1
            = Except.ok (w.unmarshalToken body).1 ∧
          (main e w hvacMode false weather (start file)).2.calls =
            [Call.tokenPost refreshToken e.apiKey,
              Call.thermostatPost (w.unmarshalToken body).1.AccessToken hvacMode] ∧
          (main e w hvacMode false weather (start file)).1 ≠ Except.error
            "Invalid HVAC mode. Must be one of: heat, cool, auto, off, auxHeatOnly") ∧
    (¬(hvacMode = "heat" ∨ hvacMode = "cool" ∨ hvacMode = "auto" ∨ hvacMode = "off"
        ∨ hvacMode = "auxHeatOnly") →
      aborted (main e w hvacMode false weather (start file)) = true ∧
        (main e w hvacMode false weather (start file)).2.calls = []) := by
  constructor
  · intro hvalid tok body hread hpost hcreate
    have hr := renewAccessToken_eq e w tok body (start file) hpost
    simp only [hcreate, Bool.false_eq_true, if_false] at hr
    refine ⟨by rw [hr], ?_, ?_⟩
    · rw [main_direct, andThen_ok _ _ tok hread, readRefreshToken_state]
      simp only [runPath, hvalid, if_true, hr, andThen, setHvacMode_calls]
      simp [start]
    · rw [main_direct, andThen_ok _ _ tok hread, readRefreshToken_state]
      simp only [runPath, hvalid, if_true, hr, andThen]
      unfold setHvacMode
      split <;> simp
  · intro hinvalid
    rw [main_direct]
    unfold readRefreshToken
    cases file <;> simp [start, andThen, runPath, hinvalid, aborted]

/-- Scenario 1 (`-m cool`): one token exchange, then one set-mode request
with `cool`; `-m frobnicate` aborts with nothing sent. -/
theorem direct_mode_validation_witness :
    (main (exampleEnv (-10) 2) (exampleWorld 0 "heat") "cool" false false
        (start (FileState.holds "P"))).2.calls =
      [Call.tokenPost "P" "key", Call.thermostatPost "A" "cool"] ∧
    aborted (main (exampleEnv (-10) 2) (exampleWorld 0 "heat") "frobnicate" false false
        (start (FileState.holds "P"))) = true ∧
    (main (exampleEnv (-10) 2) (exampleWorld 0 "heat") "frobnicate" false false
        (start (FileState.holds "P"))).2.calls = [] :=
  ⟨((direct_mode_validation (exampleEnv (-10) 2) (exampleWorld 0 "heat") "cool" false
      (FileState.holds "P")).1 (by decide) "P" "token-json" (by decide) (by decide)
      (by decide)).2.1,
    (direct_mode_validation (exampleEnv (-10) 2) (exampleWorld 0 "heat") "frobnicate" false
      (FileState.holds "P")).2 (by decide)⟩

end Ecobeehvacmode

namespace Ecobeehvacmode

/-- C5: refresh-only path of `main` (`-r` set, `-w` unset).  The run does not
depend on the value of `-m`; once the token file is read it sends exactly one
token exchange, and when the exchange is answered and the token file can be
created it ends normally; when in addition the write of the new refresh token
goes through, that token is what the file holds at the end.  The run sends no
thermostat request and no weather lookup.  For every combination of `-r` and
`-w` (and every `-m`) exactly one of the three paths is what `main` runs, and
with `-r` unset the value of `-w` changes nothing. -/
theorem refresh_only_path (e : Env) (w : World) (hvacMode : String) (file : FileState) :
    main e w hvacMode true false (start file) = main e w "" true false (start file) ∧
    (∀ refreshToken : String,
      (readRefreshToken e (start file)).1 = Except.ok refreshToken →
      (main e w hvacMode true false (start file)).2.calls
          = [Call.tokenPost refreshToken e.apiKey] ∧
        ∀ body : String, w.tokenPost refreshToken e.apiKey = HttpResult.body body →
          w.createFails = false →
          (main e w hvacMode true false (start file)).1 = Except.ok () ∧
          (writeGoesThrough w (w.unmarshalToken body).1.RefreshToken →
            main e w hvacMode true false (start file) =
              (Except.ok (),
                { file := FileState.holds (w.unmarshalToken body).1.RefreshToken,
                  calls := [Call.tokenPost refreshToken e.apiKey] }))) ∧
    (∀ c ∈ (main e w hvacMode true false (start file)).2.calls,
      c.isThermostat = false ∧ c.isWeather = false) ∧
    (∀ refresh weather : Bool, ∃! p : Path, ∀ (e0 : Env) (w0 : World) (m : String) (s : Sys),
      main e0 w0 m refresh weather s
        = andThen (readRefreshToken e0 s) (runPath e0 w0 p m)) ∧
    main e w hvacMode false true (start file) = main e w hvacMode false false (start file) := by
  have hcalls : ∀ tok : String, (readRefreshToken e (start file)).1 = Except.ok tok →
      (main e w hvacMode true false (start file)).2.calls = [Call.tokenPost tok e.apiKey] := by
    intro tok hread
    rw [main_refreshOnly, andThen_ok _ _ tok hread, readRefreshToken_state]
    simp only [runPath]
    have h := renewAccessToken_calls e w tok (start file)
    rcases hr : renewAccessToken e w tok (start file) with ⟨_ | tr, s2⟩
    · rw [hr] at h
      simpa [andThen, start] using h
    · rw [hr] at h
      simpa [andThen, start] using h
  refine ⟨?_, ?_, ?_, ?_, ?_⟩
  · rw [main_refreshOnly, main_refreshOnly]
    rfl
  · intro tok hread
    refine ⟨hcalls tok hread, ?_⟩
    intro body hpost hcreate
    rw [main_refreshOnly, andThen_ok _ _ tok hread, readRefreshToken_state]
    simp only [runPath, renewAccessToken_eq e w tok body (start file) hpost, hcreate]
    refine ⟨by simp [andThen], ?_⟩
    intro hwrite
    rw [landed_of_writeGoesThrough w _ hwrite]
    simp [andThen, start]
  · intro c hc
    rcases hread : (readRefreshToken e (start file)).1 with m | tok
    · rw [main_refreshOnly, andThen_error _ _ m hread, readRefreshToken_state] at hc
      simp [start] at hc
    · rw [hcalls tok hread] at hc
      simp at hc
      subst hc
      exact ⟨rfl, rfl⟩
  · intro refresh weather
    have key : ∀ p q : Path,
        (andThen (readRefreshToken (exampleEnv (-10) 2) (start (FileState.holds "P")))
          (runPath (exampleEnv (-10) 2) (exampleWorld 0 "heat") p "cool")).2.calls =
        (andThen (readRefreshToken (exampleEnv (-10) 2) (start (FileState.holds "P")))
          (runPath (exampleEnv (-10) 2) (exampleWorld 0 "heat") q "cool")).2.calls → p = q := by
      intro p q
      cases p <;> cases q <;> decide
    have uniq : ∀ p q : Path,
        (∀ (e0 : Env) (w0 : World) (m : String) (s : Sys),
          main e0 w0 m refresh weather s
            = andThen (readRefreshToken e0 s) (runPath e0 w0 p m)) →
        (∀ (e0 : Env) (w0 : World) (m : String) (s : Sys),
          main e0 w0 m refresh weather s
            = andThen (readRefreshToken e0 s) (runPath e0 w0 q m)) → q = p := by
      intro p q hp hq
      apply key
      rw [← hp, ← hq]
    cases refresh
    · exact ⟨Path.directMode, fun e0 w0 m s => main_direct e0 w0 m weather s,
        fun q hq => uniq _ q (fun e0 w0 m s => main_direct e0 w0 m weather s) hq⟩
    · cases weather
      · exact ⟨Path.refreshOnly, fun e0 w0 m s => main_refreshOnly e0 w0 m s,
          fun q hq => uniq _ q (fun e0 w0 m s => main_refreshOnly e0 w0 m s) hq⟩
      · exact ⟨Path.weatherDriven, fun e0 w0 m s => main_weatherDriven e0 w0 m s,
          fun q hq => uniq _ q (fun e0 w0 m s => main_weatherDriven e0 w0 m s) hq⟩
  · rw [main_direct, main_direct]

/-- Scenario 2 (`-r` alone, here with a stray `-m frobnicate`): one token
exchange, the write goes through, the new refresh token `R` is on file and the
run ends normally. -/
theorem refresh_only_path_witness :
    writeGoesThrough (exampleWorld 0 "heat") "R" ∧
    main (exampleEnv (-10) 2) (exampleWorld 0 "heat") "frobnicate" true false
        (start (FileState.holds "P")) =
      (Except.ok (), { file := FileState.holds "R", calls := [Call.tokenPost "P" "key"] }) :=
  ⟨by decide,
    (((refresh_only_path (exampleEnv (-10) 2) (exampleWorld 0 "heat") "frobnicate"
      (FileState.holds "P")).2.1 "P" (by decide)).2 "token-json" (by decide) (by decide)).2
      (by decide)⟩

end Ecobeehvacmode

/-! ## Auth client and token store -/

namespace Ecobeehvacmode

/-- When the token file can be created and the write goes through,
`renewAccessToken` returns with the new refresh token on file. -/
theorem renewAccessToken_persists_when_written (e : Env) (w : World)
    (refreshToken body : String) (s : Sys)
    (hpost : w.tokenPost refreshToken e.apiKey = HttpResult.body body)
    (hcreate : w.createFails = false)
    (hwrite : writeGoesThrough w (w.unmarshalToken body).1.RefreshToken) :
    renewAccessToken e w refreshToken s =
      (Except.ok (w.unmarshalToken body).1,
        { file := FileState.holds (w.unmarshalToken body).1.RefreshToken,
          calls := s.calls ++ [Call.tokenPost refreshToken e.apiKey] }) := by
  rw [renewAccessToken_eq e w refreshToken body s hpost,
    landed_of_writeGoesThrough w _ hwrite]
  simp [hcreate]

/-- After a write that goes through, the token is read back exactly. -/
theorem readRefreshToken_after_write_when_written (e : Env) (w : World) (T : String)
    (s : Sys) (hcreate : w.createFails = false) (hwrite : writeGoesThrough w T) :
    (writeRefreshToken w T s).1 = Except.ok () ∧
      (readRefreshToken e (writeRefreshToken w T s).2).1 = Except.ok T := by
  rw [writeRefreshToken_eq, landed_of_writeGoesThrough w T hwrite]
  simp [hcreate, readRefreshToken]

/-- C7 at a failed write: the token exchange succeeds and carries access token
`A` and refresh token `R`, the token file is created, the write of `R` fails
and its error is dropped; `renewAccessToken` returns normally with `A` and `R`
while the token file holds the empty string, not `R`, and the next
`readRefreshToken` returns the empty string. -/
theorem renewAccessToken_returns_after_failed_write :
    writeFailureWorld.tokenPost "P" (exampleEnv (-10) 2).apiKey
        = HttpResult.body "token-json" ∧
    writeFailureWorld.unmarshalToken "token-json" = (exampleToken, false) ∧
    exampleToken.RefreshToken = "R" ∧
    renewAccessToken (exampleEnv (-10) 2) writeFailureWorld "P"
        (start (FileState.holds "P")) =
      (Except.ok exampleToken,
        { file := FileState.holds "", calls := [Call.tokenPost "P" "key"] }) ∧
    (renewAccessToken (exampleEnv (-10) 2) writeFailureWorld "P"
        (start (FileState.holds "P"))).2.file ≠ FileState.holds "R" ∧
    (readRefreshToken (exampleEnv (-10) 2)
      (renewAccessToken (exampleEnv (-10) 2) writeFailureWorld "P"
        (start (FileState.holds "P"))).2).1 = Except.ok "" := by
  decide

/-- C8 at a failed write: with an old token on file, `writeRefreshToken "new"`
creates the file, the write fails and its error is dropped; the call returns
normally, the file holds the empty string, and `readRefreshToken` returns the
empty string, not `new`. -/
theorem writeRefreshToken_returns_after_failed_write :
    (writeRefreshToken writeFailureWorld "new"
        (start (FileState.holds "a-much-longer-old-token"))).1 = Except.ok () ∧
    (writeRefreshToken writeFailureWorld "new"
        (start (FileState.holds "a-much-longer-old-token"))).2.file = FileState.holds "" ∧
    (readRefreshToken (exampleEnv (-10) 2)
      (writeRefreshToken writeFailureWorld "new"
        (start (FileState.holds "a-much-longer-old-token"))).2).1 = Except.ok "" ∧
    (readRefreshToken (exampleEnv (-10) 2)
      (writeRefreshToken writeFailureWorld "new"
        (start (FileState.holds "a-much-longer-old-token"))).2).1 ≠ Except.ok "new" := by
  decide

/-- C10, as stated, fails: a body whose decoding fails does not always leave
the zero struct.  With a decode that errors after filling access token `A3`
and refresh token `R3`, `renewAccessToken` returns access token `A3`, writes
`R3` and the next `readRefreshToken` returns `R3`, not the empty string. -/
theorem renewAccessToken_partial_decode_keeps_fields :
    (partialDecodeWorld.unmarshalToken "token-json").2 = true ∧
    ((renewAccessToken (exampleEnv (-10) 2) partialDecodeWorld "P"
        (start (FileState.holds "P"))).1.toOption.map fun tr => tr.AccessToken)
      = some "A3" ∧
    (renewAccessToken (exampleEnv (-10) 2) partialDecodeWorld "P"
        (start (FileState.holds "P"))).2.file = FileState.holds "R3" ∧
    (readRefreshToken (exampleEnv (-10) 2)
      (renewAccessToken (exampleEnv (-10) 2) partialDecodeWorld "P"
        (start (FileState.holds "P"))).2).1 = Except.ok "R3" ∧
    (readRefreshToken (exampleEnv (-10) 2)
      (renewAccessToken (exampleEnv (-10) 2) partialDecodeWorld "P"
        (start (FileState.holds "P"))).2).1 ≠ Except.ok "" := by
  decide

/-- C10 (amended): token clobbering in `renewAccessToken`.  For every
persisted refresh token `P` and every response body whose decoding fails,
leaving the struct as `resp`, when the token file can be created the call does
not abort: it discards the parse error, calls `writeRefreshToken` with
`resp.RefreshToken` and returns `resp`.  When the failed decode leaves the
struct at its zero value, that is the empty string: the returned access token
is empty, the token file holds the empty string, and the next
`readRefreshToken` returns the empty string whatever the fallback constant
is. -/
theorem renewAccessToken_decode_failure_clobbers_token (e : Env) (w : World)
    (refreshToken P body : String) (resp : TokenResponse) (calls : List Call)
    (hpost : w.tokenPost refreshToken e.apiKey = HttpResult.body body)
    (hdec : w.unmarshalToken body = (resp, true))
    (hcreate : w.createFails = false) :
    (renewAccessToken e w refreshToken { file := FileState.holds P, calls := calls }).1
        = Except.ok resp ∧
      (renewAccessToken e w refreshToken { file := FileState.holds P, calls := calls }).2 =
        (writeRefreshToken w resp.RefreshToken
          (send (Call.tokenPost refreshToken e.apiKey)
            { file := FileState.holds P, calls := calls })).2 ∧
      (resp = TokenResponse.zero →
        renewAccessToken e w refreshToken { file := FileState.holds P, calls := calls } =
          (Except.ok TokenResponse.zero,
            { file := FileState.holds "",
              calls := calls ++ [Call.tokenPost refreshToken e.apiKey] }) ∧
        TokenResponse.zero.AccessToken = "" ∧
        ∀ e2 : Env,
          (readRefreshToken e2
            (renewAccessToken e w refreshToken
              { file := FileState.holds P, calls := calls }).2).1 = Except.ok "") := by
  have hr := renewAccessToken_eq e w refreshToken body
    { file := FileState.holds P, calls := calls } hpost
  rw [hdec] at hr
  simp only [hcreate, Bool.false_eq_true, if_false] at hr
  rw [hr, writeRefreshToken_eq]
  refine ⟨rfl, by simp [hcreate, send], ?_⟩
  intro hz
  subst hz
  simp [TokenResponse.zero, landed_empty, readRefreshToken]

/-- With `P` on file and a response that is not JSON (the struct stays at its
zero value), the next read gives the empty string, not `P` and not the
constant `known`. -/
theorem renewAccessToken_decode_failure_clobbers_token_witness :
    (readRefreshToken (exampleEnv (-10) 2)
      (renewAccessToken (exampleEnv (-10) 2) decodeFailureWorld "P"
        { file := FileState.holds "P", calls := [] }).2).1 = Except.ok "" :=
  ((renewAccessToken_decode_failure_clobbers_token (exampleEnv (-10) 2) decodeFailureWorld
    "P" "P" "token-json" TokenResponse.zero [] (by decide) rfl (by decide)).2.2 rfl).2.2
    (exampleEnv (-10) 2)

end Ecobeehvacmode

/-! ## Weather client -/

namespace Ecobeehvacmode

/-- C9 at a failing lookup: the weather request returns an error, `getTemp`
still returns (the zero temperature of the fresh struct), and with lockouts 2
and 4 and thermostat mode `heat` the run goes on to exchange the token and to
post `auxHeatOnly`, ending normally. -/
theorem getTemp_returns_after_failed_lookup :
    (weatherDownWorld.currentByName (exampleEnv 2 4).weatherLocation).2 = true ∧
    getTemp (exampleEnv 2 4) weatherDownWorld (start (FileState.holds "P")) =
      (Except.ok 0,
        { file := FileState.holds "P", calls := [Call.weatherByName "Seattle"] }) ∧
    changeBasedOnOwm (exampleEnv 2 4) weatherDownWorld "P" (start (FileState.holds "P")) =
      (Except.ok (),
        { file := FileState.holds "R",
          calls := [Call.weatherByName "Seattle", Call.tokenPost "P" "key",
            Call.summaryGet "A", Call.thermostatGet "A",
            Call.thermostatPost "A" "auxHeatOnly"] }) := by
  decide

end Ecobeehvacmode
